import Mathlib

/-!
Verification of the fal.ai ComfyUI node package (request building,
credential handling, image decode and stacking, orchestration, upload
staging). Python code is shallowly embedded: dictionaries become
association lists, Python floats become rationals, fallible calls
return Except values, and process state (environment variables,
staging files) is passed explicitly.
-/

namespace FalAI

/-- Model of the Python exception classes that appear in, or are named by
descriptions of, this code base. The repository itself defines no custom
exception classes: `exception` is builtin Exception, `runtimeError` is the
builtin RuntimeError raised by torch.stack, `valueError` is builtin
ValueError, `osError` stands for the builtin OSError family raised by
failing file writes. The constructors `remoteJobError`, `shapeMismatch`
and `transportError` model the distinct typed-failure classes the
specification describes; no code path in the repository constructs them. -/
inductive PyClass where
  | exception
  | runtimeError
  | valueError
  | osError
  | remoteJobError
  | shapeMismatch
  | transportError
deriving DecidableEq, Repr

/-- A raised Python exception: its class and its message. -/
structure PyErr where
  cls : PyClass
  msg : String
deriving DecidableEq, Repr

/-- One LoRA entry of the request payload, a dict with keys path and scale
(juggernaut_flux_inpainting.py lines 183-191). -/
structure Lora where
  path : String
  scale : Rat
deriving DecidableEq, Repr

/-- A value of the arguments dictionary: string, int, float, bool, or the
nested LoRA list. -/
inductive Arg where
  | s (v : String)
  | i (v : Int)
  | f (v : Rat)
  | b (v : Bool)
  | loras (v : List Lora)
deriving DecidableEq, Repr

/-- The arguments dictionary, as an insertion-ordered association list with
distinct keys, exactly as the Python dict is built. -/
abbrev Payload := List (String × Arg)

/-- Model of the Python str.strip method with no argument: remove
whitespace characters from both ends of the string. -/
def pyStrip (s : String) : String :=
  String.mk
    (((s.data.dropWhile Char.isWhitespace).reverse.dropWhile
        Char.isWhitespace).reverse)

/-- The inputs of JuggernautFluxInpainting.execute
(juggernaut_flux_inpainting.py lines 131-150), in declaration order.
Python floats are modelled as rationals, ints as integers. -/
structure ExecuteInputs where
  prompt : String
  image_url : String
  mask_url : String
  lora_1_path : String
  lora_1_scale : Rat
  lora_2_path : String
  lora_2_scale : Rat
  num_inference_steps : Int
  guidance_scale : Rat
  strength : Rat
  num_images : Int
  seed : Int
  image_size : String
  output_format : String
  enable_safety_checker : Bool
  sync_mode : Bool
deriving DecidableEq, Repr

/-- The LoRA list built by execute (juggernaut_flux_inpainting.py lines
181-191): an entry is appended for a path exactly when the path string is
truthy and its strip is truthy, and the appended path is the stripped one.
Python str.strip is modelled by pyStrip. -/
def buildLoraList (inp : ExecuteInputs) : List Lora :=
  (if inp.lora_1_path ≠ "" ∧ (pyStrip inp.lora_1_path) ≠ ""
   then [⟨(pyStrip inp.lora_1_path), inp.lora_1_scale⟩] else [])
  ++
  (if inp.lora_2_path ≠ "" ∧ (pyStrip inp.lora_2_path) ≠ ""
   then [⟨(pyStrip inp.lora_2_path), inp.lora_2_scale⟩] else [])

/-- The arguments dictionary built by execute (juggernaut_flux_inpainting.py
lines 193-214): eleven unconditional entries in dict-literal order, then
seed is added only when it differs from -1, then loras is added only when
the LoRA list is non-empty. Every numeric input is inserted verbatim. -/
def executeArguments (inp : ExecuteInputs) : Payload :=
  let lora_list := buildLoraList inp
  let args : Payload :=
    [("prompt", Arg.s inp.prompt),
     ("image_url", Arg.s inp.image_url),
     ("mask_url", Arg.s inp.mask_url),
     ("num_inference_steps", Arg.i inp.num_inference_steps),
     ("guidance_scale", Arg.f inp.guidance_scale),
     ("strength", Arg.f inp.strength),
     ("num_images", Arg.i inp.num_images),
     ("image_size", Arg.s inp.image_size),
     ("output_format", Arg.s inp.output_format),
     ("enable_safety_checker", Arg.b inp.enable_safety_checker),
     ("sync_mode", Arg.b inp.sync_mode)]
  let args := if inp.seed ≠ -1 then args ++ [("seed", Arg.i inp.seed)] else args
  let args := if lora_list ≠ [] then args ++ [("loras", Arg.loras lora_list)] else args
  args

/-- A sample input used to instantiate universally quantified theorems. -/
def inpSeedRandom : ExecuteInputs :=
  ⟨"a cat", "http://img.png", "http://mask.png", "", 1, "", 1, 28, 7/2, 17/20,
   1, -1, "landscape_4_3", "jpeg", true, false⟩

/-- As inpSeedRandom but with seed 0. -/
def inpSeedZero : ExecuteInputs :=
  ⟨"a cat", "http://img.png", "http://mask.png", "", 1, "", 1, 28, 7/2, 17/20,
   1, 0, "landscape_4_3", "jpeg", true, false⟩

/-- An input whose numeric parameters all lie outside their documented
ranges: 100 steps, guidance 99, strength 5, 9 images, first LoRA scale 9. -/
def inpOutOfRange : ExecuteInputs :=
  ⟨"a cat", "http://img.png", "http://mask.png", "lora.safetensors", 9, "", 1,
   100, 99, 5, 9, -1, "landscape_4_3", "jpeg", true, false⟩

/-- An input whose first LoRA path is whitespace only and second is empty. -/
def inpWhitespaceLora : ExecuteInputs :=
  ⟨"a cat", "http://img.png", "http://mask.png", "  ", 1, "", 1, 28, 7/2,
   17/20, 1, -1, "landscape_4_3", "jpeg", true, false⟩

/-- An input with one valid LoRA path carrying surrounding whitespace. -/
def inpPaddedLora : ExecuteInputs :=
  ⟨"a cat", "http://img.png", "http://mask.png", " lora.safetensors ", 2, "",
   1, 28, 7/2, 17/20, 1, -1, "landscape_4_3", "jpeg", true, false⟩

theorem seed_key_spec (inp : ExecuteInputs) :
    (inp.seed = -1 → (executeArguments inp).lookup "seed" = none) ∧
    (inp.seed ≠ -1 → (executeArguments inp).lookup "seed" = some (Arg.i inp.seed)) := by
  constructor
  · intro h
    by_cases hl : buildLoraList inp = [] <;>
      simp [executeArguments, h, hl, List.lookup]
  · intro h
    by_cases hl : buildLoraList inp = [] <;>
      simp [executeArguments, h, hl, List.lookup]

theorem seed_witness_statement :
    (executeArguments inpSeedRandom).lookup "seed" = none ∧
    (executeArguments inpSeedZero).lookup "seed" = some (Arg.i 0) :=
  ⟨(seed_key_spec inpSeedRandom).1 (by decide),
   (seed_key_spec inpSeedZero).2 (by decide)⟩

theorem execute_numeric_passthrough (inp : ExecuteInputs) :
    (executeArguments inp).lookup "num_inference_steps"
        = some (Arg.i inp.num_inference_steps) ∧
    (executeArguments inp).lookup "guidance_scale"
        = some (Arg.f inp.guidance_scale) ∧
    (executeArguments inp).lookup "strength" = some (Arg.f inp.strength) ∧
    (executeArguments inp).lookup "num_images" = some (Arg.i inp.num_images) ∧
    ∀ l ∈ buildLoraList inp,
      l.scale = inp.lora_1_scale ∨ l.scale = inp.lora_2_scale := by
  refine ⟨?_, ?_, ?_, ?_, ?_⟩
  · by_cases hs : inp.seed = -1 <;> by_cases hl : buildLoraList inp = [] <;>
      simp [executeArguments, hs, hl, List.lookup]
  · by_cases hs : inp.seed = -1 <;> by_cases hl : buildLoraList inp = [] <;>
      simp [executeArguments, hs, hl, List.lookup]
  · by_cases hs : inp.seed = -1 <;> by_cases hl : buildLoraList inp = [] <;>
      simp [executeArguments, hs, hl, List.lookup]
  · by_cases hs : inp.seed = -1 <;> by_cases hl : buildLoraList inp = [] <;>
      simp [executeArguments, hs, hl, List.lookup]
  · intro l hl
    unfold buildLoraList at hl
    rcases List.mem_append.mp hl with h1 | h2
    · by_cases hc : inp.lora_1_path ≠ "" ∧ (pyStrip inp.lora_1_path) ≠ ""
      · simp [hc] at h1
        left; rw [h1]
      · simp [hc] at h1
    · by_cases hc : inp.lora_2_path ≠ "" ∧ (pyStrip inp.lora_2_path) ≠ ""
      · simp [hc] at h2
        right; rw [h2]
      · simp [hc] at h2

theorem execute_numeric_passthrough_witness :
    (executeArguments inpOutOfRange).lookup "num_inference_steps"
        = some (Arg.i 100) ∧
    ∀ l ∈ buildLoraList inpOutOfRange, l.scale = 9 ∨ l.scale = 1 :=
  ⟨(execute_numeric_passthrough inpOutOfRange).1,
   (execute_numeric_passthrough inpOutOfRange).2.2.2.2⟩

theorem execute_no_clamp_counterexample :
    (executeArguments inpOutOfRange).lookup "num_inference_steps"
        = some (Arg.i 100) ∧
    ¬ ((100 : Int) ≤ 50) ∧
    (executeArguments inpOutOfRange).lookup "guidance_scale"
        = some (Arg.f 99) ∧
    ¬ ((99 : Rat) ≤ 35) ∧
    (executeArguments inpOutOfRange).lookup "strength" = some (Arg.f 5) ∧
    ¬ ((5 : Rat) ≤ 1) ∧
    (executeArguments inpOutOfRange).lookup "num_images" = some (Arg.i 9) ∧
    ¬ ((9 : Int) ≤ 4) ∧
    (executeArguments inpOutOfRange).lookup "loras"
        = some (Arg.loras [⟨"lora.safetensors", 9⟩]) ∧
    ¬ ((9 : Rat) ≤ 4) := by
  decide

theorem trim_empty_of_not_included (p : String)
    (h : ¬ (p ≠ "" ∧ (pyStrip p) ≠ "")) : (pyStrip p) = "" := by
  rcases not_and_or.mp h with h | h
  · rw [not_not.mp h]
    decide
  · exact not_not.mp h

theorem lora_list_spec (inp : ExecuteInputs) :
    ((executeArguments inp).lookup "loras"
        = if buildLoraList inp = [] then none
          else some (Arg.loras (buildLoraList inp))) ∧
    (buildLoraList inp = [] ↔
        (pyStrip inp.lora_1_path) = "" ∧ (pyStrip inp.lora_2_path) = "") ∧
    ∀ l ∈ buildLoraList inp,
      l.path ≠ "" ∧
      (l.path = (pyStrip inp.lora_1_path) ∨ l.path = (pyStrip inp.lora_2_path)) := by
  refine ⟨?_, ?_, ?_⟩
  · by_cases hs : inp.seed = -1 <;> by_cases hl : buildLoraList inp = [] <;>
      simp [executeArguments, hs, hl, List.lookup]
  · unfold buildLoraList
    by_cases h1 : inp.lora_1_path ≠ "" ∧ (pyStrip inp.lora_1_path) ≠ ""
    · by_cases h2 : inp.lora_2_path ≠ "" ∧ (pyStrip inp.lora_2_path) ≠ ""
      · rw [if_pos h1, if_pos h2]
        constructor
        · intro habs; simp at habs
        · intro hr; exact absurd hr.1 h1.2
      · rw [if_pos h1, if_neg h2]
        constructor
        · intro habs; simp at habs
        · intro hr; exact absurd hr.1 h1.2
    · by_cases h2 : inp.lora_2_path ≠ "" ∧ (pyStrip inp.lora_2_path) ≠ ""
      · rw [if_neg h1, if_pos h2]
        constructor
        · intro habs; simp at habs
        · intro hr; exact absurd hr.2 h2.2
      · rw [if_neg h1, if_neg h2]
        constructor
        · intro _
          exact ⟨trim_empty_of_not_included _ h1, trim_empty_of_not_included _ h2⟩
        · intro _
          rfl
  · intro l hl
    unfold buildLoraList at hl
    rcases List.mem_append.mp hl with h1 | h2
    · by_cases hc : inp.lora_1_path ≠ "" ∧ (pyStrip inp.lora_1_path) ≠ ""
      · simp [hc] at h1
        rw [h1]
        exact ⟨hc.2, Or.inl rfl⟩
      · simp [hc] at h1
    · by_cases hc : inp.lora_2_path ≠ "" ∧ (pyStrip inp.lora_2_path) ≠ ""
      · simp [hc] at h2
        rw [h2]
        exact ⟨hc.2, Or.inr rfl⟩
      · simp [hc] at h2

theorem lora_list_spec_witness :
    (executeArguments inpWhitespaceLora).lookup "loras" = none ∧
    (executeArguments inpPaddedLora).lookup "loras"
        = some (Arg.loras [⟨"lora.safetensors", 2⟩]) :=
  ⟨(lora_list_spec inpWhitespaceLora).1.trans (by decide),
   (lora_list_spec inpPaddedLora).1.trans (by decide)⟩

/-! Credential handling. The process environment is modelled as an
association list threaded explicitly through every operation that the
Python code performs on os.environ. -/

/-- The process environment: variable names mapped to values. -/
abbrev Env := List (String × String)

/-- Assignment to os.environ: overwrite the binding if the variable is
present, append it otherwise. -/
def envSet (env : Env) (k v : String) : Env :=
  match env with
  | [] => [(k, v)]
  | (k₀, v₀) :: rest =>
      if k₀ = k then (k, v) :: rest else (k₀, v₀) :: envSet rest k v

/-- Read of os.environ.get with a default. -/
def envGet (env : Env) (k dflt : String) : String :=
  (env.lookup k).getD dflt

/-- The FalClient instance state: the key stored on self
(fal_api/client.py line 19). -/
structure FalClientObj where
  api_key : String
deriving DecidableEq, Repr

/-- FalClient.__init__ (fal_api/client.py lines 12-22): stores the key on
the instance and also assigns it to the FAL_KEY environment variable so
that the fal_client library can read it. Returns the new instance together
with the updated process environment. -/
def FalClient_init (api_key : String) (env : Env) : FalClientObj × Env :=
  (⟨api_key⟩, envSet env "FAL_KEY" api_key)

/-- FalAIAPIClient.create_client (fal_client.py lines 40-79). The config.ini
lookup is modelled by the configKey argument (none when the file is absent,
some of the api_key entry otherwise). When the api_key argument is empty
the key is resolved from the config file and then from the FAL_KEY
environment variable; if both are empty a ValueError is raised, wrapped in
the outer Unable-to-find message. -/
def create_client (api_key : String) (configKey : Option String) (env : Env) :
    Except PyErr String :=
  if api_key = "" then
    let fromConfig := configKey.getD ""
    let k := if fromConfig ≠ "" then fromConfig else envGet env "FAL_KEY" ""
    if k = "" then
      .error ⟨PyClass.valueError,
        "Unable to find API_KEY: API_KEY is empty. Please provide an API key, set it in config.ini, or set FAL_KEY environment variable."⟩
    else .ok k
  else .ok api_key

theorem envGet_envSet (env : Env) (k v dflt : String) :
    envGet (envSet env k v) k dflt = v := by
  induction env with
  | nil => simp [envSet, envGet, List.lookup]
  | cons hd tl ih =>
    obtain ⟨k₀, v₀⟩ := hd
    by_cases h : k₀ = k
    · simp [envSet, envGet, h, List.lookup]
    · have h2 : (k == k₀) = false :=
        beq_eq_false_iff_ne.mpr (fun hh => h hh.symm)
      simp only [envSet, if_neg h]
      simpa [envGet, List.lookup, h2] using ih

/-- Claim C2 is refuted: constructing a FalClient on an empty environment
leaves the FAL_KEY variable set to the key, so the process environment is
not left unchanged. -/
theorem credential_env_counterexample :
    (FalClient_init "secret-key" []).2 = [("FAL_KEY", "secret-key")] ∧
    (FalClient_init "secret-key" []).2 ≠ ([] : Env) := by
  decide

/-- Claim C2 as amended: FalClient.__init__ takes the key explicitly and
stores it on the instance, but it also publishes the key to the FAL_KEY
environment variable, and create_client with an empty explicit key and no
config entry reads the key back from the ambient environment. -/
theorem credential_env_flow (key : String) (env : Env) :
    (FalClient_init key env).1.api_key = key ∧
    (FalClient_init key env).2 = envSet env "FAL_KEY" key ∧
    (key ≠ "" →
      create_client "" none (envSet env "FAL_KEY" key) = .ok key) := by
  refine ⟨rfl, rfl, ?_⟩
  intro hk
  have hget : envGet (envSet env "FAL_KEY" key) "FAL_KEY" "" = key :=
    envGet_envSet env "FAL_KEY" key ""
  simp [create_client, hget, hk]

theorem credential_env_flow_witness :
    (FalClient_init "sk-1" []).1.api_key = "sk-1" ∧
    create_client "" none (envSet [] "FAL_KEY" "sk-1") = .ok "sk-1" :=
  ⟨(credential_env_flow "sk-1" []).1,
   (credential_env_flow "sk-1" []).2.2 (by decide)⟩

/-! Image decoding and stacking (fal_api/utils.py). A loaded PIL image is
modelled by its size, its band names and its per-pixel samples; the
network fetch together with PIL.Image.open is an explicit function
parameter, since both are external to the repository. -/

/-- A loaded PIL image: height, width, the band names of its mode (for
example R, G, B or R, G, B, A or L), and one list of band samples in
0..255 per pixel, in row-major order. -/
structure PILImg where
  height : Nat
  width : Nat
  bands : List Char
  pix : List (List Nat)
deriving DecidableEq, Repr

/-- Sample extraction used by PIL convert to mode RGB: RGB passes through,
RGBA drops the alpha sample, single-band gray replicates its sample; for
any other source mode the value semantics is abstracted to the first three
samples, which is all the claims depend on. -/
def rgb3 (bands : List Char) (p : List Nat) : List Nat :=
  if bands = ['R', 'G', 'B'] then p
  else if bands = ['R', 'G', 'B', 'A'] then p.take 3
  else if bands = ['L'] ∨ bands = ['L', 'A'] then
    [p.headD 0, p.headD 0, p.headD 0]
  else [p.getD 0 0, p.getD 1 0, p.getD 2 0]

/-- PIL Image.convert with mode RGB: the result always has the three bands
R, G, B, whatever the source mode. -/
def convertRGB (img : PILImg) : PILImg :=
  ⟨img.height, img.width, ['R', 'G', 'B'], img.pix.map (rgb3 img.bands)⟩

/-- PIL Image.getchannel with band A: the single-band image holding the
alpha samples of the source. -/
def getchannelA (img : PILImg) : PILImg :=
  let i := img.bands.indexOf 'A'
  ⟨img.height, img.width, ['A'], img.pix.map (fun p => [p.getD i 0])⟩

/-- decode_image (fal_api/utils.py lines 48-68) applied to the image
obtained by opening the byte stream: with rtn_mask false the image is
converted to RGB; with rtn_mask true the alpha channel is returned when
the A band is present and None is returned otherwise. -/
def decode_image (img : PILImg) (rtn_mask : Bool) : Option PILImg :=
  if rtn_mask = false then some (convertRGB img)
  else if img.bands.contains 'A' then some (getchannelA img)
  else none

/-- The numpy array shape of a loaded image, as compared by torch.stack:
height, width and channel count. A single-band image is modelled with an
explicit trailing channel axis of extent one. -/
def imgShape (img : PILImg) : Nat × Nat × Nat :=
  (img.height, img.width, img.bands.length)

/-- torch.from_numpy(numpy.array(image)).float() / 255.0: the flattened
normalized sample list of one image. -/
def toTensor1 (img : PILImg) : List Rat :=
  img.pix.flatten.map (fun v => (v : Rat) / 255)

/-- A batched image tensor of shape (batch, height, width, channels); vals
holds one flattened normalized image per batch element. -/
structure Tensor4 where
  batch : Nat
  height : Nat
  width : Nat
  channels : Nat
  vals : List (List Rat)
deriving DecidableEq, Repr

deriving instance DecidableEq for Except

/-- images2tensor (fal_api/utils.py lines 71-84), iterable branch:
torch.stack of the per-image normalized tensors. torch.stack raises the
builtin RuntimeError when the list is empty, and also when any element
tensor differs in shape from the first; otherwise the result is the
batched tensor with the images in list order. -/
def images2tensor (images : List PILImg) : Except PyErr Tensor4 :=
  match images with
  | [] => .error ⟨PyClass.runtimeError, "stack expects a non-empty TensorList"⟩
  | i :: rest =>
      if rest.all (fun j => imgShape j == imgShape i) then
        .ok ⟨(i :: rest).length, i.height, i.width, i.bands.length,
             (i :: rest).map toTensor1⟩
      else
        .error ⟨PyClass.runtimeError, "stack expects each tensor to be equal size"⟩

/-- torch.zeros((1, 1, 1, 3)): the all-zero batch of one 1 by 1 RGB image
(fal_api/utils.py line 24). -/
def torch_zeros_1_1_1_3 : Tensor4 :=
  ⟨1, 1, 1, 3, [[0, 0, 0]]⟩

/-- imageurl2tensor (fal_api/utils.py lines 12-29): with an empty URL list
the constant zero tensor is returned and nothing is fetched; otherwise
each URL is fetched and decoded in list order (fetchOpen models
fetch_image composed with PIL.Image.open) and the decoded images are
stacked. decode_image with rtn_mask false always yields an image, so the
filterMap appends exactly one image per URL, as the Python loop does. -/
def imageurl2tensor (fetchOpen : String → PILImg) (image_urls : List String) :
    Except PyErr Tensor4 :=
  if image_urls = [] then .ok torch_zeros_1_1_1_3
  else
    images2tensor
      (image_urls.filterMap (fun url => decode_image (fetchOpen url) false))

/-- An all-black RGB image of the given size. -/
def mkBlackRGB (h w : Nat) : PILImg :=
  ⟨h, w, ['R', 'G', 'B'], List.replicate (h * w) [0, 0, 0]⟩

/-- The error class of a result, when it is an error. -/
def errClassOf (r : Except PyErr Tensor4) : Option PyClass :=
  match r with
  | .error e => some e.cls
  | .ok _ => none

theorem decode_image_rgb (img : PILImg) :
    decode_image img false = some (convertRGB img) := rfl

theorem decode_image_channels (img : PILImg) :
    decode_image img false = some (convertRGB img) ∧
    (convertRGB img).bands = ['R', 'G', 'B'] ∧
    (img.bands.contains 'A' = true →
      decode_image img true = some (getchannelA img) ∧
      (getchannelA img).bands = ['A']) ∧
    (img.bands.contains 'A' = false → decode_image img true = none) := by
  refine ⟨rfl, rfl, ?_, ?_⟩
  · intro h
    refine ⟨?_, rfl⟩
    have hm : 'A' ∈ img.bands := by simpa using h
    simp [decode_image, hm]
  · intro h
    have hm : 'A' ∉ img.bands := by simpa using h
    simp [decode_image, hm]

/-- A 1 by 1 RGBA image with a nonzero alpha sample. -/
def rgbaSample : PILImg := ⟨1, 1, ['R', 'G', 'B', 'A'], [[10, 20, 30, 40]]⟩

/-- A 1 by 1 RGB image with distinct samples. -/
def rgbSample : PILImg := ⟨1, 1, ['R', 'G', 'B'], [[255, 0, 0]]⟩

theorem decode_image_channels_witness :
    decode_image rgbaSample false = some (convertRGB rgbaSample) ∧
    decode_image rgbaSample true = some (getchannelA rgbaSample) ∧
    decode_image rgbSample true = none :=
  ⟨(decode_image_channels rgbaSample).1,
   ((decode_image_channels rgbaSample).2.2.1 (by decide)).1,
   (decode_image_channels rgbSample).2.2.2 (by decide)⟩

theorem images2tensor_mismatch (a : PILImg) (rest : List PILImg)
    (h : rest.all (fun j => imgShape j == imgShape a) = false) :
    images2tensor (a :: rest)
      = .error ⟨PyClass.runtimeError,
                "stack expects each tensor to be equal size"⟩ := by
  simp [images2tensor, h]

theorem images2tensor_mismatch_witness :
    images2tensor [mkBlackRGB 64 64, mkBlackRGB 32 32]
      = .error ⟨PyClass.runtimeError,
                "stack expects each tensor to be equal size"⟩ :=
  images2tensor_mismatch (mkBlackRGB 64 64) [mkBlackRGB 32 32] (by decide)

theorem images2tensor_counterexample :
    errClassOf (images2tensor [mkBlackRGB 64 64, mkBlackRGB 32 32])
      = some PyClass.runtimeError ∧
    PyClass.runtimeError ≠ PyClass.shapeMismatch := by
  constructor
  · have h : (List.all [mkBlackRGB 32 32]
        (fun j => imgShape j == imgShape (mkBlackRGB 64 64))) = false := by
      decide
    simp [images2tensor, errClassOf, h]
  · decide

theorem imageurl2tensor_empty (fetchOpen : String → PILImg) :
    imageurl2tensor fetchOpen [] = .ok torch_zeros_1_1_1_3 ∧
    images2tensor [mkBlackRGB 1 1] = .ok torch_zeros_1_1_1_3 := by
  constructor
  · rfl
  · simp [images2tensor, mkBlackRGB, toTensor1, torch_zeros_1_1_1_3,
          List.replicate, imgShape]

/-! Orchestration: the result-handling half of
JuggernautFluxInpainting.execute (juggernaut_flux_inpainting.py lines
219-232). The subscribe call itself is external; its response is the
images value when the key is present (none models a response without an
images key). The except clause only prints and re-raises, so errors
propagate unchanged. -/

/-- One entry of the images list of the remote response, a dict with a
url key. -/
structure ImgEntry where
  url : String
deriving DecidableEq, Repr

/-- Rendering of the response used inside the f-string of the raised
message, so that the message carries the raw response context. -/
def reprResponse (images? : Option (List ImgEntry)) : String :=
  match images? with
  | none => "response without images key"
  | some l => "images: " ++ String.intercalate ", " (l.map ImgEntry.url)

/-- The message of the exception raised when no images are received
(juggernaut_flux_inpainting.py line 228). -/
def noImagesMsg (images? : Option (List ImgEntry)) : String :=
  "No images received from API. Response: " ++ reprResponse images?

/-- Result handling of execute: when the images key is present and the
list is truthy, the URLs are extracted in list order and passed to
imageurl2tensor; otherwise a builtin Exception is raised whose message
carries the response. -/
def executeOnResult (fetchOpen : String → PILImg)
    (images? : Option (List ImgEntry)) : Except PyErr Tensor4 :=
  match images? with
  | some entries =>
      if entries ≠ [] then
        imageurl2tensor fetchOpen (entries.map ImgEntry.url)
      else .error ⟨PyClass.exception, noImagesMsg (some entries)⟩
  | none => .error ⟨PyClass.exception, noImagesMsg none⟩

/-- A constant fetch used to instantiate universally quantified theorems. -/
def fetchConst : String → PILImg := fun _ => mkBlackRGB 1 1

/-- Claim C5 as amended: a missing or empty images list makes execute raise
a builtin Exception (not a distinct typed error class) whose message
carries the raw response, and no tensor is returned. -/
theorem empty_images_error (fetchOpen : String → PILImg)
    (images? : Option (List ImgEntry))
    (h : images? = none ∨ images? = some []) :
    executeOnResult fetchOpen images?
      = .error ⟨PyClass.exception, noImagesMsg images?⟩ := by
  rcases h with h | h <;> subst h <;> simp [executeOnResult]

theorem empty_images_error_witness :
    executeOnResult fetchConst (some [])
      = .error ⟨PyClass.exception, noImagesMsg (some [])⟩ :=
  empty_images_error fetchConst (some []) (Or.inr rfl)

/-- Claim C5 as stated is refuted: on the empty images list the raised
error is of the builtin Exception class, which is not the RemoteJobError
class the specification names. -/
theorem empty_images_counterexample :
    errClassOf (executeOnResult fetchConst (some []))
      = some PyClass.exception ∧
    PyClass.exception ≠ PyClass.remoteJobError := by
  exact ⟨rfl, by decide⟩

theorem images2tensor_ok_vals (imgs : List PILImg) (t : Tensor4)
    (h : images2tensor imgs = .ok t) : t.vals = imgs.map toTensor1 := by
  cases imgs with
  | nil => simp [images2tensor] at h
  | cons i rest =>
    simp only [images2tensor] at h
    by_cases hall : rest.all (fun j => imgShape j == imgShape i) = true
    · rw [if_pos hall] at h
      injection h with h2
      rw [← h2]

    · rw [if_neg hall] at h
      exact absurd h (by simp)

theorem filterMap_decode (f : String → PILImg) (urls : List String) :
    urls.filterMap (fun u => decode_image (f u) false)
      = urls.map (fun u => convertRGB (f u)) := by
  induction urls with
  | nil => rfl
  | cons u rest ih =>
    rw [List.filterMap_cons, ih]
    rfl

/-- Claim C8: whenever execute returns a tensor, the batch elements are
exactly the fetched, decoded and normalized images of the response URLs,
in response order. -/
theorem execute_order (f : String → PILImg) (entries : List ImgEntry)
    (t : Tensor4) (h : executeOnResult f (some entries) = .ok t) :
    t.vals = entries.map (fun e => toTensor1 (convertRGB (f e.url))) := by
  by_cases hne : entries = []
  · subst hne
    simp [executeOnResult] at h
  · simp only [executeOnResult] at h
    rw [if_pos hne] at h
    rw [imageurl2tensor] at h
    have hm : entries.map ImgEntry.url ≠ [] := by simpa using hne
    rw [if_neg hm] at h
    have hv := images2tensor_ok_vals _ _ h
    rw [filterMap_decode] at hv
    rw [hv, List.map_map, List.map_map]
    rfl

/-- A 1 by 1 green RGB image. -/
def greenSample : PILImg := ⟨1, 1, ['R', 'G', 'B'], [[0, 255, 0]]⟩

/-- A fetch returning a red image for the first URL of the witness
response and a green image otherwise. -/
def fetchTwo : String → PILImg :=
  fun u => if u = "http://x/1.png" then rgbSample else greenSample

/-- The two-entry response of the witness scenario. -/
def entriesTwo : List ImgEntry := [⟨"http://x/1.png"⟩, ⟨"http://x/2.png"⟩]

/-- The tensor execute returns on the witness scenario: red then green. -/
def tensorTwo : Tensor4 := ⟨2, 1, 1, 3, [[1, 0, 0], [0, 1, 0]]⟩

theorem execute_order_witness :
    tensorTwo.vals
      = entriesTwo.map (fun e => toTensor1 (convertRGB (fetchTwo e.url))) :=
  execute_order fetchTwo entriesTwo tensorTwo (by
    simp [executeOnResult, imageurl2tensor, images2tensor, entriesTwo,
          fetchTwo, decode_image, convertRGB, rgb3, toTensor1, imgShape,
          rgbSample, greenSample, tensorTwo])

/-! Upload staging (fal_api/client.py lines 84-115 and upload_image.py
lines 46-95). The filesystem is modelled as the list of staging files
currently on disk. The temporary path handed out by
tempfile.NamedTemporaryFile with delete=False is a parameter, the success
of the local write to it is the writeOk flag, and the outcome of
fal_client.upload_file is the uploadResult parameter. -/

/-- The set of staging files on disk. -/
abbrev FS := List String

/-- FalClient.upload_image (fal_api/client.py lines 84-115): the temp file
is created, the bytes are written to it, then upload_file runs inside a
try block whose finally clause unlinks the temp file. The extension
bookkeeping has no filesystem effect and is not modelled. A failing write
raises before the try block is entered, so no unlink happens on that
path. -/
def FalClient_upload_image (tempPath : String) (writeOk : Bool)
    (uploadResult : Except PyErr String) (fs : FS) :
    Except PyErr String × FS :=
  let fs1 := tempPath :: fs
  if writeOk = false then
    (.error ⟨PyClass.osError, "write to staging file failed"⟩, fs1)
  else
    match uploadResult with
    | .ok url => (.ok url, fs1.erase tempPath)
    | .error e => (.error e, fs1.erase tempPath)

/-- FalAIUploadImage.upload (upload_image.py lines 46-95): the key is
published to the FAL_KEY environment variable, the image is saved to the
temp file, then upload_file runs inside a try block whose finally clause
unlinks the temp file if it still exists. Tensor-to-image conversion and
the format maps are pure data preparation and are not modelled. A failing
save raises before the try block is entered, so no unlink happens on that
path. -/
def FalAIUploadImage_upload (api_key tempPath : String) (writeOk : Bool)
    (uploadResult : Except PyErr String) (env : Env) (fs : FS) :
    Except PyErr String × Env × FS :=
  let env1 := envSet env "FAL_KEY" api_key
  let fs1 := tempPath :: fs
  if writeOk = false then
    (.error ⟨PyClass.osError, "image save failed"⟩, env1, fs1)
  else
    let cleaned := if tempPath ∈ fs1 then fs1.erase tempPath else fs1
    match uploadResult with
    | .ok url => (.ok url, env1, cleaned)
    | .error e => (.error e, env1, cleaned)

/-- Claim C9 as amended: when the write to the staging file succeeds, both
upload operations remove the staging file on every exit path, successful
upload or an error raised by the store; the filesystem is restored
exactly. -/
theorem upload_staging_cleanup (api_key tempPath : String)
    (uploadResult : Except PyErr String) (env : Env) (fs : FS) :
    (FalClient_upload_image tempPath true uploadResult fs).2 = fs ∧
    (FalAIUploadImage_upload api_key tempPath true uploadResult env fs).2.2
      = fs := by
  constructor
  · cases uploadResult <;>
      simp [FalClient_upload_image, List.erase_cons_head]
  · cases uploadResult <;>
      simp [FalAIUploadImage_upload, List.erase_cons_head]

theorem upload_staging_cleanup_witness :
    (FalClient_upload_image "/tmp/stage.png" true
        (.error ⟨PyClass.exception, "store rejected the upload"⟩) []).2
      = [] ∧
    (FalAIUploadImage_upload "sk-1" "/tmp/stage.png" true
        (.ok "https://fal.media/a.png") [] []).2.2 = [] :=
  ⟨(upload_staging_cleanup "sk-1" "/tmp/stage.png"
      (.error ⟨PyClass.exception, "store rejected the upload"⟩) [] []).1,
   (upload_staging_cleanup "sk-1" "/tmp/stage.png"
      (.ok "https://fal.media/a.png") [] []).2⟩

/-- Claim C9 as stated is refuted: when the local write to the staging
file raises, the call raises and the staging file is left on disk, so the
artifact leaks on that exit path. -/
theorem upload_staging_leak_counterexample :
    (FalClient_upload_image "/tmp/stage.png" false
        (.ok "https://fal.media/a.png") []).2 = ["/tmp/stage.png"] ∧
    (FalClient_upload_image "/tmp/stage.png" false
        (.ok "https://fal.media/a.png") []).1
      = .error ⟨PyClass.osError, "write to staging file failed"⟩ := by
  decide

end FalAI
